/-
Verification of the auto-linkedin automation engine against its
natural-language specification.

The development shallowly embeds the parts of the program that the claims
touch:

* `src/auto_linkedin/browser/linkedin_controller.py` — authentication
  detection (`_detect_security_challenges`, `_check_login_status`), the
  posting flow (`_post_to_linkedin`) and the public wrapper methods;
* `src/auto_linkedin/scheduler.py` — the scheduler loop body and post
  processing (`_scheduler_loop`, `_process_post`, `_add_to_history`);
* `src/auto_linkedin/utils/config.py` — the persisted history / error log
  (`Config.add_to_history`, `Config.add_error`).

Page state is modelled as the set of CSS selectors that currently match at
least one element, together with the page URL and the page body text; a
`document.querySelector(sel)` test becomes membership of `sel` in that set,
and JavaScript's `String.prototype.includes` becomes an executable substring
test on Lean strings.  Browser-side effects that the control flow branches
on (a click succeeding, a wait timing out) are modelled as boolean fields of
a world record, and Python exceptions as `Except` values.
-/
import Mathlib

namespace AutoLinkedin

/-! ## String utilities

JavaScript's `str.includes(sub)` (used by the page-side scripts for URL and
body-text tests) is an exact substring test.  We implement it directly over
character lists so that it is executable and easy to evaluate on witnesses.
-/

/-- `charsInfix needle hay` is true iff `needle` occurs contiguously in `hay`. -/
def charsInfix (needle : List Char) : List Char → Bool
  | [] => needle.isEmpty
  | c :: rest => needle.isPrefixOf (c :: rest) || charsInfix needle rest

/-- JavaScript `hay.includes(needle)`. -/
def strIncludes (hay needle : String) : Bool :=
  charsInfix needle.toList hay.toList

/-- JavaScript `str.toLowerCase()`, character by character (the strings it
is applied to are ASCII, where `Char.toLower` agrees with JavaScript). -/
def strToLower (s : String) : String :=
  ⟨s.data.map Char.toLower⟩

/-- Python `s[:n]` — the first `n` code points. -/
def strTake (s : String) (n : Nat) : String :=
  ⟨s.data.take n⟩

/-! ## Page state -/

/-- Abstraction of the live DOM: the URL of the page, the set of CSS
selectors that currently match at least one element, and the rendered body
text (`document.body.innerText`). -/
structure PageState where
  url : String
  selectorsPresent : List String
  bodyText : String
deriving Repr

/-- `!!document.querySelector(sel)` — the selector matches some element. -/
def querySel (p : PageState) (s : String) : Bool :=
  p.selectorsPresent.contains s

/-! ## `_detect_security_challenges`
(linkedin_controller.py lines 439–492) -/

/-- The fixed DOM markers the page script probes for bot-verification
widgets (`securityElements` in `_detect_security_challenges`). -/
def securitySelectors : List String :=
  [".recaptcha-checkbox", ".recaptcha-container", "[data-sitekey]",
   "#captcha", "#error-for-password", ".security-challenge",
   "input[name=\"security_challenge_id\"]", ".org-captcha__form",
   "#challenge-error-page", "form.challenge-form",
   ".authentication-spinner-redirect", ".challenge-dialog"]

/-- The fixed security phrases matched case-insensitively against the page
text (`securityPhrases` in `_detect_security_challenges`). -/
def securityPhrases : List String :=
  ["browser or app may not be secure", "this browser is not supported",
   "security verification", "verify your identity",
   "unusual login activity", "we noticed some unusual activity",
   "please verify", "security challenge", "CAPTCHA", "are you a robot",
   "try using a different browser"]

/-- Result record returned by the page-side security-challenge script. -/
structure SecurityCheck where
  hasSecurityChallenge : Bool
  message : Option String
deriving Repr

/-- `_detect_security_challenges`: a challenge is reported when any fixed
DOM marker matches, or any fixed phrase occurs (case-insensitively) in the
page text. -/
def detect_security_challenges (p : PageState) : SecurityCheck :=
  let elementHit := securitySelectors.any (querySel p)
  let matchingPhrase := securityPhrases.find? fun phrase =>
    strIncludes (strToLower p.bodyText) (strToLower phrase)
  { hasSecurityChallenge := elementHit || matchingPhrase.isSome
    message :=
      match matchingPhrase with
      | some phrase => some ("LinkedIn security alert: \"" ++ phrase ++ "\"")
      | none =>
        if elementHit then some "Security challenge detected" else none }

/-! ## `_check_login_status` — page-side login evaluation
(linkedin_controller.py lines 336–422) -/

/-- `navCheck` of the page script: eight boolean navigation / feed /
composer presence signals. -/
structure NavCheck where
  hasProfilePhoto : Bool
  hasProfileMenu : Bool
  hasNavMenu : Bool
  hasMyNetwork : Bool
  hasJobs : Bool
  hasMessaging : Bool
  hasFeed : Bool
  hasPostBox : Bool
deriving Repr

/-- `navCheck` computed from the DOM exactly as the page script does. -/
def navCheck (p : PageState) : NavCheck where
  hasProfilePhoto := querySel p ".global-nav__me-photo"
  hasProfileMenu := querySel p ".global-nav__me"
  hasNavMenu := querySel p ".global-nav__primary-items"
  hasMyNetwork := querySel p "a[href=\"/mynetwork/\"]"
  hasJobs := querySel p "a[href=\"/jobs/\"]"
  hasMessaging := querySel p "a[href=\"/messaging/\"]"
  hasFeed := querySel p ".feed-shared-update-v2" ||
    querySel p ".feed-shared-news-module"
  hasPostBox := querySel p "[data-control-name=\"share.sharebox_focus\"]" ||
    querySel p ".share-box-feed-entry__trigger"

/-- `Object.values(navCheck).filter(Boolean).length` — the number of true
signals among the eight. -/
def navTrueCount (p : PageState) : Nat :=
  let n := navCheck p
  [n.hasProfilePhoto, n.hasProfileMenu, n.hasNavMenu, n.hasMyNetwork,
   n.hasJobs, n.hasMessaging, n.hasFeed, n.hasPostBox].count true

/-- `urlCheck.isLoginPage`: the URL contains `/login`. -/
def isLoginPage (p : PageState) : Bool := strIncludes p.url "/login"

/-- `urlCheck.isCheckpoint`: the URL contains `/checkpoint`. -/
def isCheckpoint (p : PageState) : Bool := strIncludes p.url "/checkpoint"

/-- `urlCheck.isHomePage`: the URL contains `linkedin.com/feed` or is
exactly the LinkedIn root. -/
def isHomePage (p : PageState) : Bool :=
  strIncludes p.url "linkedin.com/feed" ||
    p.url == "https://www.linkedin.com/"

/-- `loginFormCheck.hasLoginForm`: any of the three login-form selectors
matches. -/
def hasLoginForm (p : PageState) : Bool :=
  querySel p "#username" || querySel p "input[name=\"session_key\"]" ||
    querySel p ".login__form"

/-- `contentCheck.hasWelcomeText`: the body text contains one of the
personalized greeting strings. -/
def hasWelcomeText (p : PageState) : Bool :=
  strIncludes p.bodyText "Welcome Back" ||
    strIncludes p.bodyText "Good morning" ||
    strIncludes p.bodyText "Good afternoon" ||
    strIncludes p.bodyText "Good evening"

/-- The page script's `isLoggedIn` expression, verbatim:
`(navTrueCount >= 3 && !isLoginPage && !isCheckpoint && !hasLoginForm) ||
(isHomePage && hasWelcomeText && !hasLoginForm)`. -/
def loginEvalIsLoggedIn (p : PageState) : Bool :=
  (decide (3 ≤ navTrueCount p) && !isLoginPage p && !isCheckpoint p &&
    !hasLoginForm p) ||
  (isHomePage p && hasWelcomeText p && !hasLoginForm p)

/-! ## `_check_login_status` — whole coroutine
(linkedin_controller.py lines 310–437) -/

/-- The dictionary `_check_login_status` resolves to. -/
structure LoginStatusResult where
  isLoggedIn : Bool
  error : Option String
  message : String
deriving Repr

/-- `_check_login_status` on a successfully loaded page: first run the
security-challenge detection and short-circuit with an
`error: "security_challenge"` result; otherwise report the page script's
`isLoggedIn` verdict. -/
def check_login_status_impl (p : PageState) : LoginStatusResult :=
  let security_check := detect_security_challenges p
  if security_check.hasSecurityChallenge then
    { isLoggedIn := false
      error := some "security_challenge"
      message := security_check.message.getD "Security challenge detected" }
  else
    { isLoggedIn := loginEvalIsLoggedIn p
      error := none
      message :=
        if loginEvalIsLoggedIn p then "User is logged in to LinkedIn"
        else "User is not logged in to LinkedIn" }

/-- The spec's tri-state verdict, abstracted from the result dictionary:
`Challenged` when the security-challenge short-circuit fired, otherwise
`LoggedIn` / `LoggedOut` by the boolean. -/
inductive AuthVerdict where
  | loggedIn
  | loggedOut
  | challenged
deriving Repr, DecidableEq

/-- Abstraction map from the implementation's result dictionary to the
spec's verdict. -/
def verdictOf (r : LoginStatusResult) : AuthVerdict :=
  if r.error = some "security_challenge" then .challenged
  else if r.isLoggedIn then .loggedIn
  else .loggedOut

/-! ## `_post_to_linkedin` — the posting flow
(linkedin_controller.py lines 569–1445)

The flow branches on whether each UI interaction succeeded (a strategy chain
found its target, a wait timed out, the upload raised).  Those outcomes are
the fields of `PostPageWorld`.  The flow also performs UI actions; we record
them as a trace of `FlowEvent`s so that claims about *how* the text is
entered and *whether* the submit affordance is still reached can be stated.
-/

/-- Outcomes of the browser interactions the posting flow branches on.
`confirmationSignalShown` models whether any positive post-confirmation
signal (toast, new feed item, live-region message) appears after submission;
the code never consults it — `_post_to_linkedin` sleeps five seconds after
the Post click, closes lingering dialogs (all failures swallowed) and
returns success unconditionally (lines 1273–1275 and 1435–1438). -/
structure PostPageWorld where
  /-- Some strategy of the "Start a post" chain (text click, the selector
  list, or the JavaScript scan) hit (lines 637–698). -/
  startPostFound : Bool
  /-- One of the three composer-surface selectors appeared within its
  timeout (lines 710–732). -/
  composerAppears : Bool
  /-- An editable text region was found, by the selector list or the
  JavaScript fallback (lines 740–788). -/
  textInputFound : Bool
  /-- A media-attach affordance could be clicked (lines 806–862). -/
  mediaButtonFound : Bool
  /-- `input[type="file"]` appeared after the media click (line 871). -/
  fileInputAppears : Bool
  /-- The upload block raised (timeout or otherwise), landing in the
  `except` at line 1103. -/
  uploadRaises : Bool
  /-- An attached-media marker was found after supplying files. -/
  uploadConfirmed : Bool
  /-- The media editor's "Next" button could be advanced. -/
  nextButtonFound : Bool
  /-- A submit ("Post") affordance was found and clicked
  (lines 1128–1210). -/
  postButtonFound : Bool
  /-- A positive confirmation signal was observable after submitting. -/
  confirmationSignalShown : Bool
deriving Repr, DecidableEq

/-- Outcome of the media-attachment phase. -/
inductive MediaOutcome where
  /-- Files were supplied to the file input; carries whether an
  attached-media marker was seen and whether the "Next" step advanced. -/
  | attached (uploadConfirmed : Bool) (nextClicked : Bool)
  /-- No media-attach affordance was found; the code logs
  "skipping media upload" (line 1109). -/
  | buttonNotFound
  /-- The file input element was falsy (line 1101). -/
  | inputNotFound
  /-- The upload block raised and was caught at line 1103. -/
  | uploadError
deriving Repr, DecidableEq

/-- The media phase failed to attach the files. -/
def MediaOutcome.failed : MediaOutcome → Bool
  | .attached _ _ => false
  | _ => true

/-- The media-attachment phase (lines 801–1109), entered only when
`media_files` is non-empty.  Every failure mode is caught locally: the
phase always returns and the enclosing flow never branches on its result. -/
def media_phase (w : PostPageWorld) : MediaOutcome :=
  if !w.mediaButtonFound then .buttonNotFound
  else if w.uploadRaises then .uploadError
  else if !w.fileInputAppears then .inputNotFound
  else .attached w.uploadConfirmed w.nextButtonFound

/-- UI actions the posting flow performs, in order. -/
inductive FlowEvent where
  | navigatedToFeed
  | startPostClicked
  | composerDetected
  /-- `Control+A` then `Backspace` (lines 791–792). -/
  | textCleared
  /-- One keyboard event per character: `page.keyboard.type(text, delay=50)`
  (line 796). -/
  | charTyped (c : Char) (delayMs : Nat)
  | mediaAttempted (outcome : MediaOutcome)
  | postClicked
  | dialogCleanup
deriving Repr, DecidableEq

/-- The result dictionary of a posting attempt (also used for the other
public operations returning `success`/`error`/`message`). -/
structure PostResult where
  success : Bool
  error : Option String
  message : String
deriving Repr, DecidableEq

/-- `_post_to_linkedin` on a loaded feed page: returns the result
dictionary and the trace of UI actions performed.  Mirrors the source's
early returns: open-composer chain exhausted, composer surface absent,
editable region absent, submit chain exhausted; the media phase runs only
for non-empty `media_files` and its outcome is never branched on. -/
def post_to_linkedin_impl (w : PostPageWorld) (text : String)
    (media_files : List String) : PostResult × List FlowEvent :=
  let evs := [FlowEvent.navigatedToFeed]
  if !w.startPostFound then
    ({ success := false, error := none
       message := "Could not find 'Start a post' button. LinkedIn may have updated their interface." },
     evs)
  else
  let evs := evs ++ [FlowEvent.startPostClicked]
  if !w.composerAppears then
    ({ success := false, error := none
       message := "Could not find post composer. Please try again." }, evs)
  else
  let evs := evs ++ [FlowEvent.composerDetected]
  if !w.textInputFound then
    ({ success := false, error := none
       message := "Could not find text input field. Please try again." }, evs)
  else
  let evs := evs ++ [FlowEvent.textCleared] ++
    text.toList.map (fun c => FlowEvent.charTyped c 50)
  let evs := evs ++
    (if media_files.isEmpty then []
     else [FlowEvent.mediaAttempted (media_phase w)])
  if !w.postButtonFound then
    ({ success := false, error := none
       message := "Could not find the 'Post' button to submit your post." },
     evs)
  else
    ({ success := true, error := none
       message := "Successfully posted to LinkedIn" },
     evs ++ [FlowEvent.postClicked, FlowEvent.dialogCleanup])

/-- The keyboard text-entry events of a trace. -/
def typingEvents (evs : List FlowEvent) : List FlowEvent :=
  evs.filter fun e =>
    match e with
    | .charTyped _ _ => true
    | _ => false

/-! ## Public wrapper methods
(linkedin_controller.py lines 45–144)

Each public method wraps its body in `try/except Exception` and converts a
raised exception into a result dictionary.  Exceptions escape only from the
raising stages (`_init_browser` / the event-loop machinery — the inner
coroutines catch their own); those stages are modelled as `Except` inputs. -/

/-- The `_check_login_status` coroutine including its own `except`: a raise
during navigation/evaluation yields the error dictionary of lines 431–437,
otherwise the page is classified. -/
def check_login_status_coroutine (pageLoad : Except String PageState) :
    LoginStatusResult :=
  match pageLoad with
  | .error e =>
    { isLoggedIn := false, error := some e
      message := "Error checking login status: " ++ e }
  | .ok p => check_login_status_impl p

/-- Public `check_login_status` (lines 45–60): initialization may raise;
any escaped exception is converted to an `isLoggedIn: false` dictionary. -/
def check_login_status (init : Except String Unit)
    (pageLoad : Except String PageState) : LoginStatusResult :=
  match init with
  | .error e =>
    { isLoggedIn := false, error := some e
      message := "Error checking login status: " ++ e }
  | .ok _ => check_login_status_coroutine pageLoad

/-- Public `prompt_login` (lines 62–77): the inner coroutine catches its own
exceptions, so only initialization can raise here. -/
def prompt_login (init : Except String Unit) (inner : PostResult) :
    PostResult :=
  match init with
  | .error e =>
    { success := false, error := some e
      message := "Error prompting login: " ++ e }
  | .ok _ => inner

/-- Public `post_to_linkedin` (lines 79–103): initialize, re-check the
login gate, and only then run the posting flow; a not-logged-in gate
returns the fixed not-authenticated failure without entering the flow. -/
def post_to_linkedin (init : Except String Unit)
    (pageLoad : Except String PageState) (w : PostPageWorld)
    (text : String) (media_files : List String) : PostResult :=
  match init with
  | .error e =>
    { success := false, error := some e
      message := "Error posting to LinkedIn: " ++ e }
  | .ok _ =>
    let login_status := check_login_status_coroutine pageLoad
    if !login_status.isLoggedIn then
      { success := false, error := none
        message := "Not logged in to LinkedIn. Please log in before posting." }
    else
      (post_to_linkedin_impl w text media_files).1

/-- Public `close_browser` (lines 130–144): `_close_browser` has no handler
of its own, so its exceptions surface here and are converted. -/
def close_browser (inner : Except String Unit) : PostResult :=
  match inner with
  | .error e =>
    { success := false, error := some e
      message := "Error closing browser: " ++ e }
  | .ok _ =>
    { success := true, error := none
      message := "Browser closed successfully" }

/-! ## Config store
(utils/config.py) -/

/-- A history record as built by `Config.add_to_history` (config.py
lines 89–94); the timestamp is abstracted away. -/
structure HistoryEntry where
  text : String
  image : String
  status : String
deriving Repr, DecidableEq

/-- The `error_info` dictionary the scheduler appends on a failed post
(scheduler.py lines 252–256); stored by `Config.add_error` under its
`message` key, timestamp abstracted. -/
structure SchedErrorInfo where
  error : String
  post_text : String
deriving Repr, DecidableEq

/-- The persisted configuration document, restricted to the fields the
claims touch.  `posting_interval_minutes` is optional because the loop
reads it with `config.get('posting_interval_minutes', 30)`. -/
structure ConfigState where
  posting_interval_minutes : Option ℚ
  history : List HistoryEntry
  errors : List SchedErrorInfo
deriving Repr, DecidableEq

namespace Config

/-- `Config.add_to_history(self, post, status)` (config.py lines 85–100):
builds an entry from the post's text (truncated to 100 characters) and
image, and appends it.  Note the signature: it requires both a post and a
status argument. -/
def add_to_history (c : ConfigState) (postText postImage status : String) :
    ConfigState :=
  { c with history := c.history ++
      [{ text := strTake postText 100, image := postImage, status := status }] }

/-- `Config.add_error(self, message)` (config.py lines 102–115): appends
the message (here the scheduler's `error_info` record) to the error log. -/
def add_error (c : ConfigState) (message : SchedErrorInfo) : ConfigState :=
  { c with errors := c.errors ++ [message] }

end Config

/-! ## PostScheduler
(scheduler.py) -/

/-- A queued post: the `post_data` dictionary
(`text`, `media_files`, `status`, and the `error` field set on failure). -/
structure PostData where
  text : String
  media_files : List String
  status : String
  error : Option String
deriving Repr, DecidableEq

/-- The `history_entry` dictionary `PostScheduler._add_to_history` builds
(scheduler.py lines 279–284): text truncated at 150 characters with an
ellipsis, a media count, and the fixed status `"published"`. -/
structure SchedHistoryEntry where
  text : String
  media_count : Nat
  status : String
deriving Repr, DecidableEq

/-- The entry built at scheduler.py lines 279–284. -/
def scheduler_history_entry (post : PostData) : SchedHistoryEntry :=
  { text := strTake post.text 150 ++ (if 150 < post.text.length then "..." else "")
    media_count := post.media_files.length
    status := "published" }

/-- The call `self.config.add_to_history(history_entry)` at scheduler.py
line 287 passes a single argument, but `Config.add_to_history(self, post,
status)` (config.py line 85) requires two; Python raises `TypeError` before
the method body runs, so no append ever happens.  Modelled as the raised
exception. -/
def config_add_to_history_one_arg (_c : ConfigState)
    (_entry : SchedHistoryEntry) : Except String ConfigState :=
  Except.error
    "TypeError: add_to_history() missing 1 required positional argument: status"

/-- `PostScheduler._add_to_history` (scheduler.py lines 271–289): builds
the entry and calls the config append inside `try/except Exception`; the
ill-arity call raises `TypeError`, the `except` logs and swallows it, and
the config is left unchanged. -/
def scheduler_add_to_history (c : ConfigState) (post : PostData) :
    ConfigState :=
  match config_add_to_history_one_arg c (scheduler_history_entry post) with
  | .ok c2 => c2
  | .error _ => c

/-- `PostScheduler._process_post` (scheduler.py lines 201–269), parametric
in the controller behaviour `runPost` (what
`linkedin_controller.post_to_linkedin(text, media_files)` returns).
Returns the updated config and the mutated `post_data`. -/
def process_post (c : ConfigState) (post : PostData)
    (runPost : String → List String → PostResult) :
    ConfigState × PostData :=
  if post.text = "" then
    (c, { post with status := "error", error := some "Empty post text" })
  else
    let result := runPost post.text post.media_files
    let post2 := { post with
      status := if result.success then "completed" else "error" }
    if result.success then
      (scheduler_add_to_history c post2, post2)
    else
      let error_info : SchedErrorInfo :=
        { error := result.message
          post_text := strTake post.text 100 ++
            (if 100 < post.text.length then "..." else "") }
      (Config.add_error c error_info, { post2 with error := some result.message })

/-- Scheduler state owned by `PostScheduler`: the FIFO queue (head =
earliest), `last_post_time` (minutes, rational), the config store, and the
`stop_event` flag the loop's `while` condition checks. -/
structure SchedulerState where
  queue : List PostData
  last_post_time : Option ℚ
  config : ConfigState
  stopRequested : Bool
deriving Repr, DecidableEq

/-- The jittered due interval: `max(5, post_interval_minutes *
variation_factor)` with `variation_factor` drawn uniformly from
`[0.9, 1.1]` (scheduler.py lines 156–157, repeated at 318–319). -/
def actual_interval (base jitter : ℚ) : ℚ :=
  max 5 (base * jitter)

/-- The loop's due test (scheduler.py lines 162–164): no post was ever
sent, or `now - last_post_time > actual_interval`. -/
def scheduler_due (st : SchedulerState) (now jitter : ℚ) : Bool :=
  let base := st.config.posting_interval_minutes.getD 30
  match st.last_post_time with
  | none => true
  | some t => decide (actual_interval base jitter < now - t)

/-- One iteration of the `while` body of `_scheduler_loop` (scheduler.py
lines 150–187), parametric in the current time `now`, the drawn jitter and
the controller behaviour.  When due, it pops one item (no-op on an empty
queue), processes it, and sets `last_post_time := now` unconditionally —
the assignment at line 173 runs whether or not processing succeeded.
Returns the new state and the processed item, if any.  The loop body's own
`except` (lines 189–192) catches any exception and continues, so a tick
never clears `stopRequested` nor exits the loop. -/
def scheduler_tick (st : SchedulerState) (now jitter : ℚ)
    (runPost : String → List String → PostResult) :
    SchedulerState × Option PostData :=
  if scheduler_due st now jitter then
    match st.queue with
    | [] => (st, none)
    | post :: rest =>
      let result := process_post st.config post runPost
      ({ st with
          queue := rest
          last_post_time := some now
          config := result.1 },
       some result.2)
  else (st, none)

/-! ## Concrete fixtures used by witnesses and counterexamples -/

/-- A page as seen by a logged-in user: three navigation-chrome markers,
the feed URL, a personalized greeting, no challenge markers. -/
def pageLoggedIn : PageState :=
  { url := "https://www.linkedin.com/feed/"
    selectorsPresent :=
      [".global-nav__me-photo", ".global-nav__me", ".global-nav__primary-items"]
    bodyText := "Good morning" }

/-- The login page as seen by a logged-out user. -/
def pageLoggedOut : PageState :=
  { url := "https://www.linkedin.com/login"
    selectorsPresent := ["#username"]
    bodyText := "Sign in" }

/-- A page carrying a challenge DOM marker together with plenty of
navigation chrome. -/
def pageChallenged : PageState :=
  { url := "https://www.linkedin.com/feed/"
    selectorsPresent :=
      ["#captcha", ".global-nav__me-photo", ".global-nav__me",
       ".global-nav__primary-items", "a[href=\"/mynetwork/\"]",
       "a[href=\"/jobs/\"]"]
    bodyText := "Good morning" }

/-- A world in which every UI interaction of the posting flow succeeds and
no confirmation signal ever appears. -/
def worldAllFound : PostPageWorld :=
  { startPostFound := true, composerAppears := true, textInputFound := true
    mediaButtonFound := true, fileInputAppears := true, uploadRaises := false
    uploadConfirmed := true, nextButtonFound := true, postButtonFound := true
    confirmationSignalShown := false }

/-- A world in which the "Start a post" chain is exhausted. -/
def worldComposerMissing : PostPageWorld :=
  { worldAllFound with startPostFound := false }

/-- A world in which the media-attach affordance is never found. -/
def worldMediaFails : PostPageWorld :=
  { worldAllFound with mediaButtonFound := false }

/-- An empty config store with no stored posting interval (the loop then
uses its default of 30). -/
def cfg0 : ConfigState :=
  { posting_interval_minutes := none, history := [], errors := [] }

/-- The spec scenario's queued post. -/
def postHello : PostData :=
  { text := "Hello", media_files := [], status := "queued", error := none }

/-- Scheduler state holding one queued post, last post at minute 0. -/
def cexSchedState : SchedulerState :=
  { queue := [postHello], last_post_time := some 0, config := cfg0
    stopRequested := false }

/-! ## C5 — jittered interval -/

/--
C5: the claim states that for every base ≥ 1 and jitter in [0.9, 1.1] the
computed interval lies within [0.9×base, 1.1×base] and is never below 5.
This is false at base = 1, jitter = 1: the code computes
`max(5, 1×1) = 5`, which exceeds 1.1×base = 1.1, so the interval escapes
the claimed range.
-/
theorem jitter_interval_out_of_range_cex :
    (0.9 : ℚ) ≤ 1 ∧ (1 : ℚ) ≤ 1.1 ∧ (1 : ℚ) ≤ 1 ∧
    actual_interval 1 1 = 5 ∧ ¬ actual_interval 1 1 ≤ 1.1 * 1 := by
  have h5 : actual_interval 1 1 = 5 := by
    unfold actual_interval
    rw [mul_one]
    exact max_eq_left (by norm_num)
  refine ⟨by norm_num, by norm_num, le_refl 1, h5, ?_⟩
  rw [h5]
  norm_num

/--
C5 (amended): for base ≥ 1 and jitter in [0.9, 1.1], the computed interval
`max(5, base×jitter)` is never below 5 and never above
`max(5, 1.1×base)`; it lies within [0.9×base, 1.1×base] exactly when the
5-minute floor is inactive, i.e. whenever 0.9×base ≥ 5.
-/
theorem jitter_interval_clamped (base j : ℚ) (hb : 1 ≤ base)
    (hj₁ : 0.9 ≤ j) (hj₂ : j ≤ 1.1) :
    5 ≤ actual_interval base j ∧
    actual_interval base j ≤ max 5 (1.1 * base) ∧
    (5 ≤ 0.9 * base →
      0.9 * base ≤ actual_interval base j ∧
      actual_interval base j ≤ 1.1 * base) := by
  have hb0 : (0 : ℚ) ≤ base := by linarith
  have hup : base * j ≤ 1.1 * base := by nlinarith
  have hlo : 0.9 * base ≤ base * j := by nlinarith
  refine ⟨le_max_left _ _, max_le_max (le_refl 5) hup, ?_⟩
  intro h5
  have heq : actual_interval base j = base * j :=
    max_eq_right (le_trans h5 hlo)
  exact ⟨by rw [heq]; exact hlo, by rw [heq]; linarith⟩

/-- Witness for C5 at base = 50, jitter = 1. -/
theorem jitter_interval_clamped_witness :
    ((1 : ℚ) ≤ 50 ∧ (0.9 : ℚ) ≤ 1 ∧ (1 : ℚ) ≤ 1.1) ∧
    (5 ≤ actual_interval 50 1 ∧
      actual_interval 50 1 ≤ max 5 (1.1 * 50) ∧
      ((5 : ℚ) ≤ 0.9 * 50 →
        0.9 * 50 ≤ actual_interval 50 1 ∧
        actual_interval 50 1 ≤ 1.1 * 50)) :=
  ⟨⟨by norm_num, by norm_num, by norm_num⟩,
    jitter_interval_clamped 50 1 (by norm_num) (by norm_num) (by norm_num)⟩

/-! ## C2 — login-verdict formula -/

/--
C2: on a page with no security challenge, the login-status check reports
logged-in exactly when (at least three of the eight navigation-chrome
signals hold, the URL is neither a login nor a checkpoint URL, and no
login-form marker is present) or (the URL is home-shaped, a personalized
greeting is present, and no login-form marker is present); in every other
case it reports not logged in.
-/
theorem login_verdict_iff_signal_formula (p : PageState)
    (hsec : (detect_security_challenges p).hasSecurityChallenge = false) :
    (check_login_status_impl p).isLoggedIn = true ↔
      ((3 ≤ navTrueCount p ∧ isLoginPage p = false ∧
          isCheckpoint p = false ∧ hasLoginForm p = false) ∨
        (isHomePage p = true ∧ hasWelcomeText p = true ∧
          hasLoginForm p = false)) := by
  simp only [check_login_status_impl, hsec, Bool.false_eq_true, if_false,
    loginEvalIsLoggedIn]
  simp only [Bool.or_eq_true, Bool.and_eq_true, Bool.not_eq_true',
    decide_eq_true_eq]
  tauto

/-- Witness for C2 on the logged-in fixture page. -/
theorem login_verdict_iff_signal_formula_witness :
    (detect_security_challenges pageLoggedIn).hasSecurityChallenge = false ∧
    ((check_login_status_impl pageLoggedIn).isLoggedIn = true ↔
      ((3 ≤ navTrueCount pageLoggedIn ∧ isLoginPage pageLoggedIn = false ∧
          isCheckpoint pageLoggedIn = false ∧
          hasLoginForm pageLoggedIn = false) ∨
        (isHomePage pageLoggedIn = true ∧
          hasWelcomeText pageLoggedIn = true ∧
          hasLoginForm pageLoggedIn = false))) :=
  ⟨by decide, login_verdict_iff_signal_formula pageLoggedIn (by decide)⟩

/-! ## C3 — challenge detection short-circuits -/

/--
C3: whenever any fixed challenge marker is present — a security DOM
selector matching, or a security phrase occurring case-insensitively in
the page text — the authentication check returns the Challenged verdict,
regardless of every navigation, feed, composer or URL signal.
-/
theorem challenge_short_circuits (p : PageState)
    (h : (∃ s ∈ securitySelectors, querySel p s = true) ∨
      (∃ ph ∈ securityPhrases,
        strIncludes (strToLower p.bodyText) (strToLower ph) = true)) :
    verdictOf (check_login_status_impl p) = AuthVerdict.challenged ∧
    (check_login_status_impl p).isLoggedIn = false ∧
    (check_login_status_impl p).error = some "security_challenge" := by
  have hchal : (detect_security_challenges p).hasSecurityChallenge = true := by
    unfold detect_security_challenges
    rcases h with ⟨s, hs, hq⟩ | ⟨ph, hph, hinc⟩
    · have : securitySelectors.any (querySel p) = true :=
        List.any_eq_true.mpr ⟨s, hs, hq⟩
      simp [this]
    · have : (securityPhrases.find? fun phrase =>
          strIncludes (strToLower p.bodyText) (strToLower phrase)).isSome := by
        rw [List.find?_isSome]
        exact ⟨ph, hph, hinc⟩
      simp [this]
  unfold check_login_status_impl verdictOf
  simp [hchal]

/-- Witness for C3: a challenge marker on a page with abundant navigation
chrome still yields the Challenged verdict. -/
theorem challenge_short_circuits_witness :
    ((∃ s ∈ securitySelectors, querySel pageChallenged s = true) ∨
      (∃ ph ∈ securityPhrases,
        strIncludes (strToLower pageChallenged.bodyText) (strToLower ph) = true)) ∧
    (verdictOf (check_login_status_impl pageChallenged) =
        AuthVerdict.challenged ∧
      (check_login_status_impl pageChallenged).isLoggedIn = false ∧
      (check_login_status_impl pageChallenged).error =
        some "security_challenge") :=
  ⟨Or.inl (by decide), challenge_short_circuits pageChallenged
    (Or.inl (by decide))⟩

/-- Helper: with no stored interval (default 30) and last post at minute 0,
a tick at minute 100 with jitter 1 is due, since
`max(5, 30×1) = 30 < 100`.  Rational arithmetic does not reduce in the
kernel, so this is established once, by `norm_num`, and shared. -/
theorem cexDueAt100 : scheduler_due cexSchedState 100 1 = true := by
  show decide
    (actual_interval ((cfg0.posting_interval_minutes).getD 30) 1 <
      (100 : ℚ) - 0) = true
  rw [decide_eq_true_eq]
  have h30 : ((cfg0.posting_interval_minutes).getD 30 : ℚ) = 30 := rfl
  rw [h30]
  unfold actual_interval
  rw [mul_one, max_eq_right (by norm_num : (5 : ℚ) ≤ 30)]
  norm_num

/-! ## C1 — successful run: history, lastPostAt, queue -/

/--
C1: on a successfully completed post run the code does update
`last_post_time` to the processing time and shrink the queue by one, but it
appends **no** HistoryEntry: `_add_to_history` calls
`config.add_to_history(history_entry)` with one argument while
`Config.add_to_history(self, post, status)` requires two, so the call
raises `TypeError`, which `_add_to_history`'s own `except` swallows,
leaving the persisted history unchanged — contradicting the claim's
"exactly one HistoryEntry appended".
-/
theorem successful_run_appends_no_history
    (st : SchedulerState) (now j : ℚ)
    (runPost : String → List String → PostResult)
    (post : PostData) (rest : List PostData)
    (hq : st.queue = post :: rest)
    (ht : post.text ≠ "")
    (hs : (runPost post.text post.media_files).success = true)
    (hdue : scheduler_due st now j = true) :
    (scheduler_tick st now j runPost).1.config.history = st.config.history ∧
    (scheduler_tick st now j runPost).1.last_post_time = some now ∧
    (scheduler_tick st now j runPost).1.queue.length + 1 = st.queue.length ∧
    (scheduler_tick st now j runPost).2 =
      some { post with status := "completed" } := by
  simp [scheduler_tick, hdue, hq, process_post, ht, hs,
    scheduler_add_to_history, config_add_to_history_one_arg]

/-- Witness for C1: the full pipeline on the fixture logged-in page with
every UI step succeeding processes the queued "Hello" post successfully,
yet the persisted history stays empty. -/
theorem successful_run_appends_no_history_witness :
    ({ queue := [postHello], last_post_time := none, config := cfg0
       stopRequested := false } : SchedulerState).queue =
        postHello :: [] ∧
    postHello.text ≠ "" ∧
    (post_to_linkedin (.ok ()) (.ok pageLoggedIn) worldAllFound
      postHello.text postHello.media_files).success = true ∧
    scheduler_due
      { queue := [postHello], last_post_time := none, config := cfg0
        stopRequested := false } 0 1 = true ∧
    ((scheduler_tick
        { queue := [postHello], last_post_time := none, config := cfg0
          stopRequested := false } 0 1
        (post_to_linkedin (.ok ()) (.ok pageLoggedIn)
          worldAllFound)).1.config.history = cfg0.history ∧
      (scheduler_tick
        { queue := [postHello], last_post_time := none, config := cfg0
          stopRequested := false } 0 1
        (post_to_linkedin (.ok ()) (.ok pageLoggedIn)
          worldAllFound)).1.last_post_time = some 0 ∧
      (scheduler_tick
        { queue := [postHello], last_post_time := none, config := cfg0
          stopRequested := false } 0 1
        (post_to_linkedin (.ok ()) (.ok pageLoggedIn)
          worldAllFound)).1.queue.length + 1 =
        ({ queue := [postHello], last_post_time := none, config := cfg0
           stopRequested := false } : SchedulerState).queue.length ∧
      (scheduler_tick
        { queue := [postHello], last_post_time := none, config := cfg0
          stopRequested := false } 0 1
        (post_to_linkedin (.ok ()) (.ok pageLoggedIn)
          worldAllFound)).2 =
        some { postHello with status := "completed" }) :=
  ⟨rfl, by decide, by decide, by decide,
    successful_run_appends_no_history
      { queue := [postHello], last_post_time := none, config := cfg0
        stopRequested := false } 0 1
      (post_to_linkedin (.ok ()) (.ok pageLoggedIn) worldAllFound)
      postHello [] rfl (by decide) (by decide) (by decide)⟩

/-! ## C7 — not-authenticated gate -/

/--
C7: when a queued post is processed and the login gate inside the public
`post_to_linkedin` does not report logged-in, the processed post ends in
status "error" with the fixed not-authenticated message, the persisted
history is untouched, and exactly one ErrorEntry is appended to the
persisted error log.
-/
theorem not_authenticated_gate_records_error
    (pageLoad : Except String PageState) (w : PostPageWorld)
    (st : SchedulerState) (now j : ℚ)
    (post : PostData) (rest : List PostData)
    (hq : st.queue = post :: rest)
    (ht : post.text ≠ "")
    (hgate : (check_login_status_coroutine pageLoad).isLoggedIn = false)
    (hdue : scheduler_due st now j = true) :
    (scheduler_tick st now j
      (post_to_linkedin (.ok ()) pageLoad w)).2 =
      some { post with
        status := "error"
        error := some "Not logged in to LinkedIn. Please log in before posting." } ∧
    (scheduler_tick st now j
      (post_to_linkedin (.ok ()) pageLoad w)).1.config.history =
      st.config.history ∧
    (scheduler_tick st now j
      (post_to_linkedin (.ok ()) pageLoad w)).1.config.errors =
      st.config.errors ++
        [{ error := "Not logged in to LinkedIn. Please log in before posting."
           post_text := strTake post.text 100 ++
             (if 100 < post.text.length then "..." else "") }] := by
  simp [scheduler_tick, hdue, hq, process_post, ht, post_to_linkedin,
    hgate, Config.add_error]

/-- Witness for C7: the spec scenario — queue `{text: "Hello",
mediaPaths: []}`, logged-out gate. -/
theorem not_authenticated_gate_records_error_witness :
    cexSchedState.queue = postHello :: [] ∧
    postHello.text ≠ "" ∧
    (check_login_status_coroutine (.ok pageLoggedOut)).isLoggedIn = false ∧
    scheduler_due cexSchedState 100 1 = true ∧
    ((scheduler_tick cexSchedState 100 1
        (post_to_linkedin (.ok ()) (.ok pageLoggedOut) worldAllFound)).2 =
      some { postHello with
        status := "error"
        error := some "Not logged in to LinkedIn. Please log in before posting." } ∧
      (scheduler_tick cexSchedState 100 1
        (post_to_linkedin (.ok ()) (.ok pageLoggedOut)
          worldAllFound)).1.config.history = cexSchedState.config.history ∧
      (scheduler_tick cexSchedState 100 1
        (post_to_linkedin (.ok ()) (.ok pageLoggedOut)
          worldAllFound)).1.config.errors =
        cexSchedState.config.errors ++
          [{ error := "Not logged in to LinkedIn. Please log in before posting."
             post_text := strTake postHello.text 100 ++
               (if 100 < postHello.text.length then "..." else "") }]) :=
  ⟨rfl, by decide, by decide, cexDueAt100,
    not_authenticated_gate_records_error (.ok pageLoggedOut) worldAllFound
      cexSchedState 100 1 postHello [] rfl (by decide) (by decide) cexDueAt100⟩

/-! ## C4 — composer failure under a logged-in gate -/

/--
C4 counterexample: the claim says a failed attempt leaves `lastPostAt`
unchanged.  In the code, `self.last_post_time = current_time`
(scheduler.py line 173) runs unconditionally after `_process_post`, so
with `last_post_time = 0`, a tick at minute 100 whose post fails with the
composer-not-found reason still moves `last_post_time` to 100.
-/
theorem composer_fail_updates_last_post_cex :
    (check_login_status_coroutine (.ok pageLoggedIn)).isLoggedIn = true ∧
    (post_to_linkedin (.ok ()) (.ok pageLoggedIn) worldComposerMissing
      "Hello" []).success = false ∧
    (post_to_linkedin (.ok ()) (.ok pageLoggedIn) worldComposerMissing
      "Hello" []).message =
      "Could not find 'Start a post' button. LinkedIn may have updated their interface." ∧
    cexSchedState.last_post_time = some 0 ∧
    (scheduler_tick cexSchedState 100 1
      (post_to_linkedin (.ok ()) (.ok pageLoggedIn)
        worldComposerMissing)).1.last_post_time = some 100 ∧
    (scheduler_tick cexSchedState 100 1
      (post_to_linkedin (.ok ()) (.ok pageLoggedIn)
        worldComposerMissing)).1.last_post_time ≠
      cexSchedState.last_post_time := by
  refine ⟨by decide, by decide, by decide, rfl, ?_, ?_⟩
  · simp only [scheduler_tick, cexDueAt100]
    simp [cexSchedState]
  · simp only [scheduler_tick, cexDueAt100]
    norm_num [cexSchedState]

/--
C4 (amended): under a logged-in gate, when the open-composer chain is
exhausted the dequeued post is recorded as failed with the
composer-not-found reason and the scheduler loop continues (the stop flag
is untouched and the tick returns normally) — but `lastPostAt` is updated
to the time of processing by the failed attempt, not left unchanged.
-/
theorem composer_fail_tick_continues
    (st : SchedulerState) (now j : ℚ)
    (pageLoad : Except String PageState) (w : PostPageWorld)
    (post : PostData) (rest : List PostData)
    (hq : st.queue = post :: rest)
    (ht : post.text ≠ "")
    (hgate : (check_login_status_coroutine pageLoad).isLoggedIn = true)
    (hcomposer : w.startPostFound = false)
    (hdue : scheduler_due st now j = true) :
    (scheduler_tick st now j
      (post_to_linkedin (.ok ()) pageLoad w)).2 =
      some { post with
        status := "error"
        error := some "Could not find 'Start a post' button. LinkedIn may have updated their interface." } ∧
    (scheduler_tick st now j
      (post_to_linkedin (.ok ()) pageLoad w)).1.stopRequested =
      st.stopRequested ∧
    (scheduler_tick st now j
      (post_to_linkedin (.ok ()) pageLoad w)).1.last_post_time = some now := by
  simp [scheduler_tick, hdue, hq, process_post, ht, post_to_linkedin,
    hgate, post_to_linkedin_impl, hcomposer, Config.add_error]

/-- Witness for C4's amended statement at the concrete fixture. -/
theorem composer_fail_tick_continues_witness :
    cexSchedState.queue = postHello :: [] ∧
    postHello.text ≠ "" ∧
    (check_login_status_coroutine (.ok pageLoggedIn)).isLoggedIn = true ∧
    worldComposerMissing.startPostFound = false ∧
    scheduler_due cexSchedState 100 1 = true ∧
    ((scheduler_tick cexSchedState 100 1
        (post_to_linkedin (.ok ()) (.ok pageLoggedIn)
          worldComposerMissing)).2 =
      some { postHello with
        status := "error"
        error := some "Could not find 'Start a post' button. LinkedIn may have updated their interface." } ∧
      (scheduler_tick cexSchedState 100 1
        (post_to_linkedin (.ok ()) (.ok pageLoggedIn)
          worldComposerMissing)).1.stopRequested =
        cexSchedState.stopRequested ∧
      (scheduler_tick cexSchedState 100 1
        (post_to_linkedin (.ok ()) (.ok pageLoggedIn)
          worldComposerMissing)).1.last_post_time = some 100) :=
  ⟨rfl, by decide, by decide, by decide, cexDueAt100,
    composer_fail_tick_continues cexSchedState 100 1 (.ok pageLoggedIn)
      worldComposerMissing postHello [] rfl (by decide) (by decide)
      (by decide) cexDueAt100⟩

/-! ## C6 — bare timeout counts as success -/

/--
C6: once the submit (Post) affordance has been activated, the posting flow
returns success after its fixed wait, and the result is entirely
independent of whether any positive confirmation signal (toast, new feed
item, live-region message) was ever observable — a bare timeout counts as
success.
-/
theorem bare_timeout_counts_as_success
    (w : PostPageWorld) (text : String) (media : List String) (b : Bool)
    (h1 : w.startPostFound = true) (h2 : w.composerAppears = true)
    (h3 : w.textInputFound = true) (h4 : w.postButtonFound = true) :
    (post_to_linkedin_impl w text media).1.success = true ∧
    (post_to_linkedin_impl w text media).1.message =
      "Successfully posted to LinkedIn" ∧
    post_to_linkedin_impl { w with confirmationSignalShown := b } text media =
      post_to_linkedin_impl w text media := by
  refine ⟨?_, ?_, ?_⟩
  · simp [post_to_linkedin_impl, h1, h2, h3, h4]
  · simp [post_to_linkedin_impl, h1, h2, h3, h4]
  · cases w
    rfl

/-- Witness for C6: every step found, no confirmation signal ever shown,
still success. -/
theorem bare_timeout_counts_as_success_witness :
    (worldAllFound.startPostFound = true ∧
      worldAllFound.composerAppears = true ∧
      worldAllFound.textInputFound = true ∧
      worldAllFound.postButtonFound = true ∧
      worldAllFound.confirmationSignalShown = false) ∧
    ((post_to_linkedin_impl worldAllFound "Hello" []).1.success = true ∧
      (post_to_linkedin_impl worldAllFound "Hello" []).1.message =
        "Successfully posted to LinkedIn" ∧
      post_to_linkedin_impl
          { worldAllFound with confirmationSignalShown := true } "Hello" [] =
        post_to_linkedin_impl worldAllFound "Hello" []) :=
  ⟨by decide,
    bare_timeout_counts_as_success worldAllFound "Hello" [] true
      (by decide) (by decide) (by decide) (by decide)⟩

/-! ## C8 — text entry is character-by-character -/

/-- Modelled from the spec: entering the post text "as a single input
event (not character-by-character)" would mean the text-entry step of the
flow contributes exactly one input event to the trace, whatever the length
of the text. -/
def specSingleInputEntry (w : PostPageWorld) (text : String)
    (media : List String) : Prop :=
  (typingEvents (post_to_linkedin_impl w text media).2).length = 1

/--
C8 counterexample: the claim says the post text is injected as a single
input event.  The code calls `page.keyboard.type(text=text, delay=50)`
(linkedin_controller.py line 796), which emits one keyboard event per
character: for the two-character text "Hi" the trace holds two typing
events, not one.
-/
theorem text_entry_single_event_cex :
    ¬ specSingleInputEntry worldAllFound "Hi" [] ∧
    typingEvents (post_to_linkedin_impl worldAllFound "Hi" []).2 =
      [FlowEvent.charTyped 'H' 50, FlowEvent.charTyped 'i' 50] := by
  constructor
  · intro h
    have : (typingEvents
        (post_to_linkedin_impl worldAllFound "Hi" []).2).length = 1 := h
    simp [post_to_linkedin_impl, worldAllFound, typingEvents] at this
  · decide

/--
C8 (amended): in the ComposerOpen → TextEntered step, after focusing the
editable region and clearing residual content, the post text is typed
character by character — the trace holds exactly one keyboard event per
character of the text, each with the fixed 50 ms delay — not as a single
input event.
-/
theorem text_typed_char_by_char
    (w : PostPageWorld) (text : String) (media : List String)
    (h1 : w.startPostFound = true) (h2 : w.composerAppears = true)
    (h3 : w.textInputFound = true) :
    typingEvents (post_to_linkedin_impl w text media).2 =
      text.toList.map (fun c => FlowEvent.charTyped c 50) ∧
    FlowEvent.textCleared ∈ (post_to_linkedin_impl w text media).2 := by
  have hfilter : ∀ l : List Char,
      typingEvents (l.map fun c => FlowEvent.charTyped c 50) =
        l.map fun c => FlowEvent.charTyped c 50 := by
    intro l
    unfold typingEvents
    refine List.filter_eq_self.mpr ?_
    intro a ha
    rcases List.mem_map.mp ha with ⟨c, hc, rfl⟩
    rfl
  by_cases hpb : w.postButtonFound <;>
    by_cases hme : media.isEmpty <;>
      simp [post_to_linkedin_impl, h1, h2, h3, hpb, hme, typingEvents,
        List.filter_append, hfilter]

/-- Witness for C8's amended statement on the fixture world. -/
theorem text_typed_char_by_char_witness :
    (worldAllFound.startPostFound = true ∧
      worldAllFound.composerAppears = true ∧
      worldAllFound.textInputFound = true) ∧
    (typingEvents (post_to_linkedin_impl worldAllFound "Hi" []).2 =
      ("Hi".toList.map fun c => FlowEvent.charTyped c 50) ∧
      FlowEvent.textCleared ∈
        (post_to_linkedin_impl worldAllFound "Hi" []).2) :=
  ⟨by decide,
    text_typed_char_by_char worldAllFound "Hi" []
      (by decide) (by decide) (by decide)⟩

/-! ## C9 — media failure is non-fatal -/

/--
C9: for a post with non-empty media, any failure of the media-attachment
phase (attach affordance not found, file input not found, upload error) is
non-fatal: the flow's result is the same as posting without media, the
media attempt is recorded in the trace, and when a submit affordance
exists the flow still reaches and activates it and reports success.
-/
theorem media_failure_non_fatal
    (w : PostPageWorld) (text : String) (media : List String)
    (hm : media ≠ [])
    (_hfail : (media_phase w).failed = true)
    (h1 : w.startPostFound = true) (h2 : w.composerAppears = true)
    (h3 : w.textInputFound = true) :
    (post_to_linkedin_impl w text media).1 =
      (post_to_linkedin_impl w text []).1 ∧
    FlowEvent.mediaAttempted (media_phase w) ∈
      (post_to_linkedin_impl w text media).2 ∧
    (w.postButtonFound = true →
      (post_to_linkedin_impl w text media).1.success = true ∧
      FlowEvent.postClicked ∈ (post_to_linkedin_impl w text media).2) := by
  have hme : media.isEmpty = false := by
    cases media with
    | nil => exact absurd rfl hm
    | cons a as => rfl
  refine ⟨?_, ?_, ?_⟩
  · by_cases hpb : w.postButtonFound <;>
      simp [post_to_linkedin_impl, h1, h2, h3, hpb, hme]
  · by_cases hpb : w.postButtonFound <;>
      simp [post_to_linkedin_impl, h1, h2, h3, hpb, hme]
  · intro hpb
    constructor <;> simp [post_to_linkedin_impl, h1, h2, h3, hpb, hme]

/-- Witness for C9: media-attach affordance missing, submit still reached
and the post succeeds. -/
theorem media_failure_non_fatal_witness :
    (["img.png"] ≠ ([] : List String) ∧
      (media_phase worldMediaFails).failed = true ∧
      worldMediaFails.startPostFound = true ∧
      worldMediaFails.composerAppears = true ∧
      worldMediaFails.textInputFound = true ∧
      worldMediaFails.postButtonFound = true) ∧
    ((post_to_linkedin_impl worldMediaFails "Hello" ["img.png"]).1 =
      (post_to_linkedin_impl worldMediaFails "Hello" []).1 ∧
      FlowEvent.mediaAttempted (media_phase worldMediaFails) ∈
        (post_to_linkedin_impl worldMediaFails "Hello" ["img.png"]).2 ∧
      (worldMediaFails.postButtonFound = true →
        (post_to_linkedin_impl worldMediaFails "Hello"
          ["img.png"]).1.success = true ∧
        FlowEvent.postClicked ∈
          (post_to_linkedin_impl worldMediaFails "Hello" ["img.png"]).2)) :=
  ⟨by decide,
    media_failure_non_fatal worldMediaFails "Hello" ["img.png"]
      (by decide) (by decide) (by decide) (by decide) (by decide)⟩

/-! ## C10 — public operations never propagate exceptions -/

/--
C10 counterexample: the claim says every internally raised exception is
carried in the returned dictionary.  But an exception raised inside
`post_to_linkedin`'s login gate — e.g. `page.goto` timing out at
linkedin_controller.py lines 316–320 while invoked from line 87 — is
absorbed by `_check_login_status`'s own handler, which converts it to an
`isLoggedIn: false` dictionary; the wrapper then returns the generic
not-logged-in result with `error` absent, not carrying the exception's
message.
-/
theorem gate_exception_error_not_carried_cex :
    (post_to_linkedin (.ok ()) (.error "Timeout 15000ms exceeded")
      worldAllFound "Hello" []).success = false ∧
    (post_to_linkedin (.ok ()) (.error "Timeout 15000ms exceeded")
      worldAllFound "Hello" []).error = none ∧
    (post_to_linkedin (.ok ()) (.error "Timeout 15000ms exceeded")
      worldAllFound "Hello" []).message =
      "Not logged in to LinkedIn. Please log in before posting." ∧
    (post_to_linkedin (.ok ()) (.error "Timeout 15000ms exceeded")
      worldAllFound "Hello" []).error ≠ some "Timeout 15000ms exceeded" := by
  decide

/--
C10 (amended): each public controller operation is a total function of its
staged outcomes — it always returns a result dictionary, never re-raising.
An exception that escapes to the public wrapper's own `try/except` is
carried in the dictionary's `error` field with its message and the
`success`/`isLoggedIn` flag is false; but an exception raised inside
`post_to_linkedin`'s login gate is absorbed by the gate's inner handler and
reported only as the generic not-logged-in failure with its `success` flag
false and no error carried.
-/
theorem public_ops_never_propagate
    (e : String) (pageLoad : Except String PageState)
    (w : PostPageWorld) (text : String) (media : List String)
    (inner : PostResult) :
    ((check_login_status (.error e) pageLoad).isLoggedIn = false ∧
      (check_login_status (.error e) pageLoad).error = some e ∧
      (check_login_status (.error e) pageLoad).message =
        "Error checking login status: " ++ e) ∧
    ((prompt_login (.error e) inner).success = false ∧
      (prompt_login (.error e) inner).error = some e ∧
      (prompt_login (.error e) inner).message =
        "Error prompting login: " ++ e) ∧
    ((post_to_linkedin (.error e) pageLoad w text media).success = false ∧
      (post_to_linkedin (.error e) pageLoad w text media).error = some e ∧
      (post_to_linkedin (.error e) pageLoad w text media).message =
        "Error posting to LinkedIn: " ++ e) ∧
    ((close_browser (.error e)).success = false ∧
      (close_browser (.error e)).error = some e ∧
      (close_browser (.error e)).message =
        "Error closing browser: " ++ e) ∧
    ((check_login_status_coroutine (.error e)).isLoggedIn = false ∧
      (check_login_status_coroutine (.error e)).error = some e) ∧
    ((post_to_linkedin (.ok ()) (.error e) w text media).success = false ∧
      (post_to_linkedin (.ok ()) (.error e) w text media).error = none ∧
      (post_to_linkedin (.ok ()) (.error e) w text media).message =
        "Not logged in to LinkedIn. Please log in before posting.") := by
  simp [check_login_status, prompt_login, post_to_linkedin, close_browser,
    check_login_status_coroutine]

end AutoLinkedin
